import Mathlib

/-!
Verification of the video discovery, transcript, summarization and export
logic of `news_utube2.py` (AI_news_summarizer), as a shallow embedding in
Lean 4.  External collaborators (the YouTube Data API, the transcript
library, the chat-completion client, the file system) are modelled as
explicit function or data parameters; the bodies of `get_videos`,
`get_transcript`, `summarize_text` and the relevant parts of `main` are
translated statement by statement from the Python source.
-/

set_option autoImplicit false

namespace NewsUtube

/-- An HTTP error raised by the Google API client (`googleapiclient.errors.HttpError`). -/
structure HttpError where
  msg : String
deriving DecidableEq, Repr

/-- The `snippet` part of a search-result item, with the fields `get_videos` reads:
`title`, `liveBroadcastContent`, and the default thumbnail's `url`. -/
structure Snippet where
  title : String
  liveBroadcastContent : String
  thumbnailUrl : String
deriving DecidableEq, Repr

/-- One item of the search response: `item['id']['videoId']` and `item['snippet']`. -/
structure SearchItem where
  videoId : String
  snippet : Snippet
deriving DecidableEq, Repr

/-- The `statistics` part of a `videos().list` response item.  The Python code reads
`statistics.get('viewCount', 0)`: the field may be absent, hence an `Option`. -/
structure Statistics where
  viewCount : Option Nat
deriving DecidableEq, Repr

/-- The dictionary `get_videos` appends to its result list:
`{'title', 'video_id', 'view_count', 'thumbnail'}`. -/
structure Video where
  title : String
  video_id : String
  view_count : Nat
  thumbnail : String
deriving DecidableEq, Repr

/-- The YouTube collaborator built by `build('youtube', 'v3', developerKey=api_key)`:
`search` is `youtube.search().list(q=query, ..., maxResults=max_results).execute()`
(returning the `items` list or raising an `HttpError`), and `videosStats` is
`youtube.videos().list(part="statistics", id=video_id).execute()` (returning the
`items` list of statistics records or raising an `HttpError`). -/
structure YouTubeService where
  search : String → Nat → Except HttpError (List SearchItem)
  videosStats : String → Except HttpError (List Statistics)

/-- The body of the `for item in search_response['items']` loop of `get_videos`,
inside the `try` block: any `HttpError` raised by a per-item statistics call
propagates out of the loop (hence the `Except` result).  A live broadcast is
skipped; an empty statistics `items` list skips the item; a view count of at
most 10000 skips the item; otherwise the video dictionary is appended. -/
def processItems (stats : String → Except HttpError (List Statistics)) :
    List SearchItem → Except HttpError (List Video)
  | [] => Except.ok []
  | item :: rest =>
    if item.snippet.liveBroadcastContent ≠ "live" then
      match stats item.videoId with
      | Except.error e => Except.error e
      | Except.ok statsItems =>
        match statsItems with
        | [] => processItems stats rest
        | s :: _ =>
          let view_count := s.viewCount.getD 0
          if view_count > 10000 then
            Except.map
              (fun vs => { title := item.snippet.title,
                           video_id := item.videoId,
                           view_count := view_count,
                           thumbnail := item.snippet.thumbnailUrl } :: vs)
              (processItems stats rest)
          else
            processItems stats rest
    else
      processItems stats rest

/-- Function `get_videos(query, max_results, api_key)`: the whole body sits in one
`try`/`except HttpError` block, so an `HttpError` from the search call or from
any per-item statistics call yields the `return []` of the handler. -/
def get_videos (youtube : YouTubeService) (query : String) (max_results : Nat) :
    List Video :=
  match youtube.search query max_results with
  | Except.error _ => []
  | Except.ok items =>
    match processItems youtube.videosStats items with
    | Except.error _ => []
    | Except.ok videos => videos

/-- One caption fragment of the transcript collaborator's response:
`{text, start, duration}`.  `get_transcript` discards everything but `text`. -/
structure TranscriptEntry where
  text : String
  start : Int
  duration : Int
deriving DecidableEq, Repr

/-- A failure of `YouTubeTranscriptApi.get_transcript` (no captions, network
error, disabled transcripts): an arbitrary `Exception`. -/
structure TranscriptError where
  msg : String
deriving DecidableEq, Repr

/-- The transcript collaborator: `YouTubeTranscriptApi.get_transcript(video_id)`
returns the fragment list or raises. -/
def TranscriptApi : Type :=
  String → Except TranscriptError (List TranscriptEntry)

/-- Function `get_transcript(video_id)`: on success joins the `text` fields with a single
space (`" ".join([entry['text'] for entry in transcript])`); the `except
Exception` handler returns `""`. -/
def get_transcript (api : TranscriptApi) (video_id : String) : String :=
  match api video_id with
  | Except.error _ => ""
  | Except.ok transcript =>
    String.intercalate " " (transcript.map TranscriptEntry.text)

/-- One chat message, `{"role": ..., "content": ...}`. -/
structure ChatMessage where
  role : String
  content : String
deriving DecidableEq, Repr

/-- The request `summarize_text` sends: model name, messages,
and `max_tokens`. -/
structure ChatRequest where
  model : String
  messages : List ChatMessage
  max_tokens : Nat
deriving DecidableEq, Repr

/-- One choice of the chat-completion response; `summarize_text` reads
`response.choices[0].message.content`. -/
structure ChatChoice where
  message : ChatMessage
deriving DecidableEq, Repr

/-- The chat-completion response: a list of choices. -/
structure ChatResponse where
  choices : List ChatChoice
deriving DecidableEq, Repr

/-- A failure of the summarization backend (unreachable backend, invalid model
name, quota/error response): an arbitrary `Exception`. -/
structure ApiError where
  msg : String
deriving DecidableEq, Repr

/-- The summarization collaborator:
`client.chat.completions.create(...)` returns a response or raises. -/
def ChatClient : Type :=
  ChatRequest → Except ApiError ChatResponse

/-- The exact request `summarize_text` builds: the fixed system message, the
user message `f"Summarize the following text:\n\n{text}"`, `max_tokens=150`. -/
def mkSummarizeRequest (model text : String) : ChatRequest :=
  { model := model,
    messages :=
      [ { role := "system",
          content := "You are a helpful assistant that summarizes text." },
        { role := "user",
          content := "Summarize the following text:\n\n" ++ text } ],
    max_tokens := 150 }

/-- Function `summarize_text(text, model)`: on success returns
`response.choices[0].message.content`; the `except Exception` handler returns
`""`.  An empty `choices` list makes `response.choices[0]` raise an
`IndexError`, which the same handler turns into `""`. -/
def summarize_text (client : ChatClient) (text model : String) : String :=
  match client (mkSummarizeRequest model text) with
  | Except.error _ => ""
  | Except.ok response =>
    match response.choices with
    | [] => ""
    | choice :: _ => choice.message.content

/-- One element of the `summaries` list `main` accumulates:
`{"Title", "Video ID", "View Count", "Summary"}`. -/
structure SummaryRecord where
  title : String
  videoId : String
  viewCount : Nat
  summary : String
deriving DecidableEq, Repr

/-- The per-video loop of `main`: fetch the transcript, and only `if
transcript:` (non-empty) summarize it and append the record. -/
def accumulateSummaries (tApi : TranscriptApi) (client : ChatClient)
    (model : String) (videos : List Video) : List SummaryRecord :=
  videos.foldl
    (fun summaries video =>
      let transcript := get_transcript tApi video.video_id
      if transcript ≠ "" then
        summaries ++
          [{ title := video.title,
             videoId := video.video_id,
             viewCount := video.view_count,
             summary := summarize_text client transcript model }]
      else
        summaries)
    []

/-- A file open mode, as passed to Python's `open`. -/
inductive FileMode where
  | write
  | append
deriving DecidableEq, Repr

/-- The content of a freshly opened file: `"w"` truncates, `"a"` keeps the
previous content. -/
def openFile (previous : String) : FileMode → String
  | FileMode.write => ""
  | FileMode.append => previous

/-- Python's `f.write(s)` appends `s` to the file content accumulated so far. -/
def fwrite (f s : String) : String :=
  f ++ s

/-- The body of the export loop of `main`: the five `f.write` calls for one
summary record (`"-"*50` is the separator). -/
def writeRecord (f : String) (s : SummaryRecord) : String :=
  fwrite (fwrite (fwrite (fwrite (fwrite f
    ("Title: " ++ s.title ++ "\n"))
    ("Video ID: " ++ s.videoId ++ "\n"))
    ("View Count: " ++ toString s.viewCount ++ "\n"))
    ("Summary:\n" ++ s.summary ++ "\n"))
    ("\n" ++ String.mk (List.replicate 50 '-') ++ "\n\n")

/-- The export step of `main`: `with open("summaries.txt", "w", ...) as f`
followed by the loop over `summaries`.  `previous` is the file's content from
an earlier run; the result is its content afterwards. -/
def exportSummaries (previous : String) (summaries : List SummaryRecord) :
    String :=
  summaries.foldl writeRecord (openFile previous FileMode.write)

/-- The video dictionary built from a search item and a resolved view count
(lines 39–44 of the source). -/
def mkVideo (item : SearchItem) (vc : Nat) : Video :=
  { title := item.snippet.title,
    video_id := item.videoId,
    view_count := vc,
    thumbnail := item.snippet.thumbnailUrl }

/-! ### Concrete collaborator instances used to exercise the theorems -/

/-- A search item not flagged as live. -/
def okItem : SearchItem :=
  { videoId := "vid1",
    snippet := { title := "Title One", liveBroadcastContent := "none",
                 thumbnailUrl := "http://thumb/1" } }

/-- A service whose search returns `okItem` and whose statistics report
12345 views. -/
def okYT : YouTubeService :=
  { search := fun _ _ => Except.ok [okItem],
    videosStats := fun _ => Except.ok [{ viewCount := some 12345 }] }

/-- A service whose search call raises an `HttpError`. -/
def failYT : YouTubeService :=
  { search := fun _ _ => Except.error { msg := "search failed" },
    videosStats := fun _ => Except.ok [{ viewCount := some 12345 }] }

/-- The error raised by the statistics lookup of `cexYT` for `cexItemA`. -/
def cexErr : HttpError := { msg := "statistics lookup failed" }

/-- First search item of the counterexample service (statistics lookup fails). -/
def cexItemA : SearchItem :=
  { videoId := "vidA",
    snippet := { title := "Title A", liveBroadcastContent := "none",
                 thumbnailUrl := "http://thumb/A" } }

/-- Second search item of the counterexample service (statistics lookup
succeeds with 20000 views). -/
def cexItemB : SearchItem :=
  { videoId := "vidB",
    snippet := { title := "Title B", liveBroadcastContent := "none",
                 thumbnailUrl := "http://thumb/B" } }

/-- A service whose search succeeds with two items but whose per-item
statistics lookup raises an `HttpError` for the first item only. -/
def cexYT : YouTubeService :=
  { search := fun _ _ => Except.ok [cexItemA, cexItemB],
    videosStats := fun vid =>
      if vid = "vidA" then Except.error cexErr
      else Except.ok [{ viewCount := some 20000 }] }

/-! ### Lemmas about `processItems` -/

/-- Every video in a successful `processItems` result comes from a
search item that is not live, whose statistics lookup succeeded with a
non-empty list, and whose resolved view count exceeds 10000. -/
theorem processItems_ok_mem
    (stats : String → Except HttpError (List Statistics)) :
    ∀ (items : List SearchItem) (vs : List Video),
      processItems stats items = Except.ok vs →
      ∀ v ∈ vs, ∃ item ∈ items,
        item.snippet.liveBroadcastContent ≠ "live" ∧
        ∃ s rest, stats item.videoId = Except.ok (s :: rest) ∧
          s.viewCount.getD 0 > 10000 ∧
          v = mkVideo item (s.viewCount.getD 0) := by
  intro items
  induction items with
  | nil =>
    intro vs h v hv
    simp only [processItems, Except.ok.injEq] at h
    subst h
    simp at hv
  | cons item rest ih =>
    intro vs h v hv
    rw [processItems] at h
    by_cases hlive : item.snippet.liveBroadcastContent ≠ "live"
    · rw [if_pos hlive] at h
      cases hst : stats item.videoId with
      | error e =>
        rw [hst] at h
        cases h
      | ok statsItems =>
        rw [hst] at h
        cases statsItems with
        | nil =>
          dsimp only at h
          obtain ⟨it, hit, hrest⟩ := ih vs h v hv
          exact ⟨it, List.mem_cons_of_mem _ hit, hrest⟩
        | cons s srest =>
          dsimp only at h
          by_cases hvc : s.viewCount.getD 0 > 10000
          · rw [if_pos hvc] at h
            cases hrec : processItems stats rest with
            | error e => rw [hrec] at h; cases h
            | ok ws =>
              rw [hrec, Except.map] at h
              injection h with h
              subst h
              rcases List.mem_cons.mp hv with hv | hv
              · exact ⟨item, List.mem_cons_self _ _,
                  hlive, s, srest, hst, hvc, hv⟩
              · obtain ⟨it, hit, hrest⟩ := ih ws hrec v hv
                exact ⟨it, List.mem_cons_of_mem _ hit, hrest⟩
          · rw [if_neg hvc] at h
            obtain ⟨it, hit, hrest⟩ := ih vs h v hv
            exact ⟨it, List.mem_cons_of_mem _ hit, hrest⟩
    · rw [if_neg hlive] at h
      obtain ⟨it, hit, hrest⟩ := ih vs h v hv
      exact ⟨it, List.mem_cons_of_mem _ hit, hrest⟩

/-- Provenance of every video returned by `get_videos`: the search call
succeeded and the video was built from one of its non-live items whose
resolved view count exceeds 10000. -/
theorem get_videos_mem (youtube : YouTubeService) (query : String)
    (max_results : Nat) (v : Video)
    (hv : v ∈ get_videos youtube query max_results) :
    ∃ items, youtube.search query max_results = Except.ok items ∧
      ∃ item ∈ items,
        item.snippet.liveBroadcastContent ≠ "live" ∧
        ∃ s rest, youtube.videosStats item.videoId = Except.ok (s :: rest) ∧
          s.viewCount.getD 0 > 10000 ∧
          v = mkVideo item (s.viewCount.getD 0) := by
  rw [get_videos] at hv
  cases hs : youtube.search query max_results with
  | error e => rw [hs] at hv; simp at hv
  | ok items =>
    rw [hs] at hv
    dsimp only at hv
    cases hp : processItems youtube.videosStats items with
    | error e => rw [hp] at hv; simp at hv
    | ok vs =>
      rw [hp] at hv
      dsimp only at hv
      exact ⟨items, rfl, processItems_ok_mem youtube.videosStats items vs hp v hv⟩

/-- An item passes both filters of the loop: it is not flagged live, its
statistics lookup succeeds with a non-empty list, and its resolved view count
exceeds 10000. -/
def passesFilters (stats : String → Except HttpError (List Statistics))
    (item : SearchItem) : Prop :=
  item.snippet.liveBroadcastContent ≠ "live" ∧
  ∃ s rest, stats item.videoId = Except.ok (s :: rest) ∧
    s.viewCount.getD 0 > 10000

/-- The view count the loop resolves for an item:
`int(statistics.get('viewCount', 0))` of the first statistics record. -/
def resolvedViewCount (stats : String → Except HttpError (List Statistics))
    (item : SearchItem) : Nat :=
  match stats item.videoId with
  | Except.ok (s :: _) => s.viewCount.getD 0
  | _ => 0

/-- The ids of a successful `processItems` result form an order-preserving
sublist of the ids of the search items. -/
theorem processItems_sublist
    (stats : String → Except HttpError (List Statistics)) :
    ∀ (items : List SearchItem) (vs : List Video),
      processItems stats items = Except.ok vs →
      (vs.map Video.video_id).Sublist (items.map SearchItem.videoId) := by
  intro items
  induction items with
  | nil =>
    intro vs h
    simp only [processItems, Except.ok.injEq] at h
    subst h
    simp
  | cons item rest ih =>
    intro vs h
    rw [processItems] at h
    by_cases hlive : item.snippet.liveBroadcastContent ≠ "live"
    · rw [if_pos hlive] at h
      cases hst : stats item.videoId with
      | error e => rw [hst] at h; cases h
      | ok statsItems =>
        rw [hst] at h
        cases statsItems with
        | nil =>
          dsimp only at h
          exact List.Sublist.cons _ (ih vs h)
        | cons s srest =>
          dsimp only at h
          by_cases hvc : s.viewCount.getD 0 > 10000
          · rw [if_pos hvc] at h
            cases hrec : processItems stats rest with
            | error e => rw [hrec] at h; cases h
            | ok ws =>
              rw [hrec, Except.map] at h
              injection h with h
              subst h
              exact List.Sublist.cons₂ _ (ih ws hrec)
          · rw [if_neg hvc] at h
            exact List.Sublist.cons _ (ih vs h)
    · rw [if_neg hlive] at h
      exact List.Sublist.cons _ (ih vs h)

/-- When every item passes both filters, `processItems` succeeds and keeps
every item, in order. -/
theorem processItems_all_pass
    (stats : String → Except HttpError (List Statistics)) :
    ∀ items : List SearchItem,
      (∀ item ∈ items, passesFilters stats item) →
      processItems stats items =
        Except.ok (items.map (fun item =>
          mkVideo item (resolvedViewCount stats item))) := by
  intro items
  induction items with
  | nil => intro _; rfl
  | cons item rest ih =>
    intro hpass
    obtain ⟨hlive, s, srest, hst, hvc⟩ :=
      hpass item (List.mem_cons_self _ _)
    rw [processItems, if_pos hlive, hst]
    dsimp only
    rw [if_pos hvc, ih (fun it hit => hpass it (List.mem_cons_of_mem _ hit))]
    rw [Except.map]
    simp only [List.map_cons, Except.ok.injEq, List.cons.injEq]
    constructor
    · rw [mkVideo, resolvedViewCount, hst]
    · trivial

/-! ### Claim theorems -/

/-- C1: for every query, result bound and search-collaborator response, every
item in the list returned by `get_videos` has a view count strictly greater
than 10000; no returned video has `view_count ≤ 10000`. -/
theorem get_videos_view_count_gt_threshold (youtube : YouTubeService)
    (query : String) (max_results : Nat) (v : Video)
    (hv : v ∈ get_videos youtube query max_results) :
    10000 < v.view_count := by
  obtain ⟨items, -, item, -, -, s, rest, -, hvc, hveq⟩ :=
    get_videos_mem youtube query max_results v hv
  rw [hveq]
  exact hvc

/-- Witness for C1: `okYT` returns exactly one video and the theorem applies
to it, giving a view count above 10000. -/
theorem get_videos_view_count_gt_threshold_witness :
    mkVideo okItem 12345 ∈ get_videos okYT "ai news" 1 ∧
      10000 < (mkVideo okItem 12345).view_count := by
  refine ⟨by decide, ?_⟩
  exact get_videos_view_count_gt_threshold okYT "ai news" 1
    (mkVideo okItem 12345) (by decide)

/-- C2: the list returned by `get_videos` contains no item that the search
collaborator flagged as a currently-live broadcast: every returned video was
built from a search-response item whose `liveBroadcastContent` is not
`"live"`. -/
theorem get_videos_no_live_broadcast (youtube : YouTubeService)
    (query : String) (max_results : Nat) (items : List SearchItem)
    (hs : youtube.search query max_results = Except.ok items) (v : Video)
    (hv : v ∈ get_videos youtube query max_results) :
    ∃ item ∈ items,
      item.snippet.liveBroadcastContent ≠ "live" ∧
      v.video_id = item.videoId ∧ v.title = item.snippet.title ∧
      v.thumbnail = item.snippet.thumbnailUrl := by
  obtain ⟨items2, hs2, item, hitem, hlive, s, rest, -, -, hveq⟩ :=
    get_videos_mem youtube query max_results v hv
  rw [hs] at hs2
  injection hs2 with hs2
  subst hs2
  exact ⟨item, hitem, hlive, by rw [hveq]; exact ⟨rfl, rfl, rfl⟩⟩

/-- Witness for C2: applied to `okYT`, whose only search item is not live. -/
theorem get_videos_no_live_broadcast_witness :
    ∃ item ∈ [okItem],
      item.snippet.liveBroadcastContent ≠ "live" ∧
      (mkVideo okItem 12345).video_id = item.videoId ∧
      (mkVideo okItem 12345).title = item.snippet.title ∧
      (mkVideo okItem 12345).thumbnail = item.snippet.thumbnailUrl :=
  get_videos_no_live_broadcast okYT "ai news" 1 [okItem] rfl
    (mkVideo okItem 12345) (by decide)

/-- C5: if the search collaborator call raises an `HttpError`, `get_videos`
returns the empty list instead of propagating the exception. -/
theorem get_videos_search_failure_empty (youtube : YouTubeService)
    (query : String) (max_results : Nat) (e : HttpError)
    (hs : youtube.search query max_results = Except.error e) :
    get_videos youtube query max_results = [] := by
  rw [get_videos, hs]

/-- Witness for C5: applied to `failYT`, whose search call fails. -/
theorem get_videos_search_failure_empty_witness :
    get_videos failYT "ai news" 5 = [] :=
  get_videos_search_failure_empty failYT "ai news" 5
    { msg := "search failed" } rfl

/-- C3: `get_videos` preserves order: the ids of the returned descriptors form
an order-preserving sublist of the ids of the search collaborator's items;
in particular, when every returned item passes both filters, the output is
exactly the item list mapped to descriptors, in the same order. -/
theorem get_videos_preserves_order (youtube : YouTubeService)
    (query : String) (max_results : Nat) (items : List SearchItem)
    (hs : youtube.search query max_results = Except.ok items) :
    ((get_videos youtube query max_results).map Video.video_id).Sublist
        (items.map SearchItem.videoId) ∧
      ((∀ item ∈ items, passesFilters youtube.videosStats item) →
        get_videos youtube query max_results =
          items.map (fun item =>
            mkVideo item (resolvedViewCount youtube.videosStats item))) := by
  constructor
  · rw [get_videos, hs]
    dsimp only
    cases hp : processItems youtube.videosStats items with
    | error e => simp
    | ok vs => exact processItems_sublist youtube.videosStats items vs hp
  · intro hpass
    rw [get_videos, hs]
    dsimp only
    rw [processItems_all_pass youtube.videosStats items hpass]

/-- Witness for C3: for `okYT` the single item passes both filters and the
output is the singleton descriptor list, in order. -/
theorem get_videos_preserves_order_witness :
    ((get_videos okYT "ai news" 1).map Video.video_id).Sublist
        ([okItem].map SearchItem.videoId) ∧
      get_videos okYT "ai news" 1 =
        [okItem].map (fun item =>
          mkVideo item (resolvedViewCount okYT.videosStats item)) := by
  have h := get_videos_preserves_order okYT "ai news" 1 [okItem] rfl
  refine ⟨h.1, h.2 ?_⟩
  intro item hitem
  have heq : item = okItem := by simpa using hitem
  subst heq
  exact ⟨by decide, { viewCount := some 12345 }, [], rfl, by decide⟩

/-- C4 counterexample: `cexYT`'s search succeeds with two non-live items; the
statistics lookup for the first raises an `HttpError` while the lookup for the
second succeeds with 20000 views.  The claim says only the first item is
excluded, i.e. the output is the descriptor of the second item; in fact the
exception aborts the loop and `get_videos` returns `[]`. -/
theorem get_videos_per_item_failure_counterexample :
    cexYT.search "ai news" 2 = Except.ok [cexItemA, cexItemB] ∧
      cexYT.videosStats cexItemA.videoId = Except.error cexErr ∧
      cexYT.videosStats cexItemB.videoId =
        Except.ok [{ viewCount := some 20000 }] ∧
      get_videos cexYT "ai news" 2 ≠ [mkVideo cexItemB 20000] ∧
      get_videos cexYT "ai news" 2 = [] :=
  ⟨rfl, rfl, rfl, by decide, rfl⟩

/-- If some non-live item's statistics lookup raises an `HttpError`, the whole
`processItems` walk results in an error. -/
theorem processItems_error_of_mem
    (stats : String → Except HttpError (List Statistics)) :
    ∀ (items : List SearchItem) (item : SearchItem), item ∈ items →
      item.snippet.liveBroadcastContent ≠ "live" →
      ∀ e : HttpError, stats item.videoId = Except.error e →
      ∃ e2, processItems stats items = Except.error e2 := by
  intro items
  induction items with
  | nil => intro item hmem; simp at hmem
  | cons hd rest ih =>
    intro item hmem hlive e he
    rcases List.mem_cons.mp hmem with heq | hmem2
    · subst heq
      exact ⟨e, by rw [processItems, if_pos hlive, he]⟩
    · obtain ⟨e2, h2⟩ := ih item hmem2 hlive e he
      rw [processItems]
      by_cases hdlive : hd.snippet.liveBroadcastContent ≠ "live"
      · rw [if_pos hdlive]
        cases hst : stats hd.videoId with
        | error e3 => exact ⟨e3, rfl⟩
        | ok statsItems =>
          cases statsItems with
          | nil => exact ⟨e2, h2⟩
          | cons s srest =>
            dsimp only
            by_cases hvc : s.viewCount.getD 0 > 10000
            · rw [if_pos hvc, h2]
              exact ⟨e2, rfl⟩
            · rw [if_neg hvc]
              exact ⟨e2, h2⟩
      · rw [if_neg hdlive]
        exact ⟨e2, h2⟩

/-- C4 amended: in the authenticated backend, if a per-item statistics lookup
raises an `HttpError` for any non-live item after the search succeeded, the
exception is caught by the single surrounding handler and `get_videos` returns
the empty list — the whole batch is discarded, not just the failing item. -/
theorem get_videos_per_item_failure_empties_batch (youtube : YouTubeService)
    (query : String) (max_results : Nat) (items : List SearchItem)
    (hs : youtube.search query max_results = Except.ok items)
    (item : SearchItem) (hmem : item ∈ items)
    (hlive : item.snippet.liveBroadcastContent ≠ "live")
    (e : HttpError) (he : youtube.videosStats item.videoId = Except.error e) :
    get_videos youtube query max_results = [] := by
  obtain ⟨e2, h2⟩ :=
    processItems_error_of_mem youtube.videosStats items item hmem hlive e he
  rw [get_videos, hs]
  dsimp only
  rw [h2]

/-- Witness for the amended C4: applied to `cexYT`. -/
theorem get_videos_per_item_failure_empties_batch_witness :
    get_videos cexYT "ai news" 2 = [] :=
  get_videos_per_item_failure_empties_batch cexYT "ai news" 2
    [cexItemA, cexItemB] rfl cexItemA (by decide) (by decide) cexErr rfl

/-- A transcript collaborator that always fails. -/
def failTranscriptApi : TranscriptApi :=
  fun _ => Except.error { msg := "Transcripts are disabled for this video" }

/-- A transcript collaborator returning the two fragments of the spec's
example, with timing metadata that the fetcher must discard. -/
def helloTranscriptApi : TranscriptApi :=
  fun _ => Except.ok
    [ { text := "Hello", start := 0, duration := 2 },
      { text := "world", start := 2, duration := 3 } ]

/-- C6: if the transcript collaborator fails for a video id, `get_transcript`
returns the empty string (the handler catches every exception). -/
theorem get_transcript_failure_empty (api : TranscriptApi)
    (video_id : String) (e : TranscriptError)
    (he : api video_id = Except.error e) :
    get_transcript api video_id = "" := by
  rw [get_transcript, he]

/-- Witness for C6: applied to the always-failing collaborator. -/
theorem get_transcript_failure_empty_witness :
    get_transcript failTranscriptApi "dQw4w9WgXcQ" = "" :=
  get_transcript_failure_empty failTranscriptApi "dQw4w9WgXcQ"
    { msg := "Transcripts are disabled for this video" } rfl

/-- C7: on success, `get_transcript` returns the `text` fields of the caption
fragments joined in order with a single space, discarding the start/duration
metadata. -/
theorem get_transcript_joins_texts (api : TranscriptApi) (video_id : String)
    (entries : List TranscriptEntry)
    (he : api video_id = Except.ok entries) :
    get_transcript api video_id =
      String.intercalate " " (entries.map TranscriptEntry.text) := by
  rw [get_transcript, he]

/-- Witness for C7: fragments with texts `"Hello"` and `"world"` yield
`"Hello world"`. -/
theorem get_transcript_joins_texts_witness :
    get_transcript helloTranscriptApi "abc123" = "Hello world" := by
  rw [get_transcript_joins_texts helloTranscriptApi "abc123"
    [ { text := "Hello", start := 0, duration := 2 },
      { text := "world", start := 2, duration := 3 } ] rfl]
  decide

/-- A summarization backend that always fails. -/
def failChatClient : ChatClient :=
  fun _ => Except.error { msg := "connection refused" }

/-- A summarization backend that returns one choice with a fixed summary. -/
def okChatClient : ChatClient :=
  fun _ => Except.ok
    { choices :=
        [ { message := { role := "assistant",
                         content := "A short summary." } } ] }

/-- C8: `summarize_text` returns the empty string when the backend call for
its request fails, and returns the first choice's message content unchanged
when the call succeeds with a non-empty choice list. -/
theorem summarize_text_spec (client : ChatClient) (text model : String) :
    (∀ e : ApiError,
      client (mkSummarizeRequest model text) = Except.error e →
      summarize_text client text model = "") ∧
    (∀ (response : ChatResponse) (choice : ChatChoice)
        (rest : List ChatChoice),
      client (mkSummarizeRequest model text) = Except.ok response →
      response.choices = choice :: rest →
      summarize_text client text model = choice.message.content) := by
  constructor
  · intro e he
    rw [summarize_text, he]
  · intro response choice rest hok hchoices
    rw [summarize_text, hok]
    dsimp only
    rw [hchoices]

/-- Witness for C8: a failing backend yields `""`; a succeeding backend yields
its first choice's content unchanged. -/
theorem summarize_text_spec_witness :
    summarize_text failChatClient "some text" "llama3.1:8b" = "" ∧
      summarize_text okChatClient "some text" "llama3.1:8b" =
        "A short summary." :=
  ⟨(summarize_text_spec failChatClient "some text" "llama3.1:8b").1
      { msg := "connection refused" } rfl,
   (summarize_text_spec okChatClient "some text" "llama3.1:8b").2
      { choices :=
          [ { message := { role := "assistant",
                           content := "A short summary." } } ] }
      { message := { role := "assistant", content := "A short summary." } }
      [] rfl rfl⟩

/-- Joining a cons is the head appended to the join of the tail. -/
theorem str_join_cons (a : String) (l : List String) :
    String.join (a :: l) = a ++ String.join l := by
  apply String.ext
  simp [String.join_eq, String.data_append]

/-- A record written after some accumulated content is that content followed
by the record written on an empty file. -/
theorem writeRecord_append (acc : String) (s : SummaryRecord) :
    writeRecord acc s = acc ++ writeRecord "" s := by
  simp [writeRecord, fwrite, String.append_assoc]

/-- The export loop appends one record per summary to the accumulated
content. -/
theorem foldl_writeRecord (l : List SummaryRecord) :
    ∀ acc : String,
      l.foldl writeRecord acc = acc ++ String.join (l.map (writeRecord "")) := by
  induction l with
  | nil => intro acc; simp [String.join]
  | cons s l ih =>
    intro acc
    rw [List.foldl_cons, ih (writeRecord acc s), writeRecord_append,
      List.map_cons, str_join_cons, String.append_assoc]

/-- C9: each run opens the export file in write mode, so the result is
independent of the file's previous content, and the content is exactly one
record per accumulated summary, in order, each record being the literal
template followed by the 50-dash separator line. -/
theorem exportSummaries_overwrites_and_formats (previous : String)
    (summaries : List SummaryRecord) :
    exportSummaries previous summaries =
        String.join (summaries.map (writeRecord "")) ∧
      exportSummaries previous summaries = exportSummaries "" summaries ∧
      ∀ s : SummaryRecord, writeRecord "" s =
        ("Title: " ++ s.title ++ "\n") ++
        ("Video ID: " ++ s.videoId ++ "\n") ++
        ("View Count: " ++ toString s.viewCount ++ "\n") ++
        ("Summary:\n" ++ s.summary ++ "\n") ++
        ("\n" ++ "--------------------------------------------------" ++ "\n\n") := by
  have hcontent : ∀ p : String,
      exportSummaries p summaries =
        String.join (summaries.map (writeRecord "")) := by
    intro p
    rw [exportSummaries, openFile, foldl_writeRecord, String.empty_append]
  refine ⟨hcontent previous, by rw [hcontent previous, hcontent ""], ?_⟩
  intro s
  have hd : String.mk (List.replicate 50 '-') =
      "--------------------------------------------------" := by decide
  rw [writeRecord, hd]
  simp [fwrite]

/-- The record `main` appends for a video whose transcript is non-empty. -/
def summaryOf (tApi : TranscriptApi) (client : ChatClient) (model : String)
    (v : Video) : SummaryRecord :=
  { title := v.title,
    videoId := v.video_id,
    viewCount := v.view_count,
    summary := summarize_text client (get_transcript tApi v.video_id) model }

/-- The accumulation fold of `main`, generalized over the accumulator. -/
theorem accumulate_foldl_general (tApi : TranscriptApi) (client : ChatClient)
    (model : String) :
    ∀ (videos : List Video) (acc : List SummaryRecord),
      videos.foldl
        (fun summaries video =>
          let transcript := get_transcript tApi video.video_id
          if transcript ≠ "" then
            summaries ++
              [{ title := video.title,
                 videoId := video.video_id,
                 viewCount := video.view_count,
                 summary := summarize_text client transcript model }]
          else
            summaries)
        acc =
      acc ++ (videos.filter
          (fun v => get_transcript tApi v.video_id ≠ "")).map
        (summaryOf tApi client model) := by
  intro videos
  induction videos with
  | nil => intro acc; simp
  | cons v vs ih =>
    intro acc
    rw [List.foldl_cons]
    dsimp only
    by_cases h : get_transcript tApi v.video_id = ""
    · rw [if_neg (by simpa using h), ih acc]
      simp [h]
    · rw [if_pos h, ih]
      simp [List.filter_cons, h, summaryOf, List.append_assoc]

/-- C10: a discovered video whose transcript fetch yields the empty string is
omitted from the accumulated summaries (hence from the export), while a video
whose transcript is non-empty always yields a record — even when
summarization fails, in which case the record's `Summary` field is the empty
string returned by `summarize_text`. -/
theorem accumulateSummaries_skips_empty_transcripts (tApi : TranscriptApi)
    (client : ChatClient) (model : String) (videos : List Video) :
    accumulateSummaries tApi client model videos =
      (videos.filter
          (fun v => get_transcript tApi v.video_id ≠ "")).map
        (summaryOf tApi client model) := by
  rw [accumulateSummaries, accumulate_foldl_general, List.nil_append]

end NewsUtube
